import Mathlib

/-
Verification of the per-node task scheduler in src/system/tasks/Task.hpp
(Grappa runtime). Shallow embedding: pointers are modelled as natural
numbers (0 = NULL), the std::deque privateQ as a Lean List (head = front),
and the stateful TaskManager as a structure with explicit state passing.
Statistics calls (TaskManagerStatistics) have no control-flow effect and
are omitted, as are VLOG/DVLOG logging statements.
-/

namespace Grappa

/-- A pointer-sized opaque value (a `void*` in the source). -/
abbrev Ptr := Nat

/-- The null pointer. -/
def NULL : Ptr := 0

/-- Grappa Node identifier (`typedef int16_t Node` in Task.hpp). -/
abbrev Node := Int

/-- Task.hpp `class Task`: a function pointer `fn_p` taking three
pointer-sized arguments, plus the three arguments `arg0`, `arg1`, `arg2`. -/
structure Task where
  fn_p : Ptr
  arg0 : Ptr
  arg1 : Ptr
  arg2 : Ptr
deriving DecidableEq, Repr

/-- The event of calling a function pointer on three arguments, used as the
observable effect of `Task::execute`. -/
structure Call where
  fn : Ptr
  a0 : Ptr
  a1 : Ptr
  a2 : Ptr
deriving DecidableEq, Repr

/-- The diagnostics printed by the failing `CHECK( fn_p!=NULL )` in
`Task::execute`: the function pointer and all three arguments. -/
structure CheckFailure where
  fn_p : Ptr
  arg0 : Ptr
  arg1 : Ptr
  arg2 : Ptr
deriving DecidableEq, Repr

/-- Task.hpp `Task::execute`: `CHECK( fn_p!=NULL )` aborts with the function
pointer and all three arguments when `fn_p` is NULL; otherwise the function
pointer is invoked once on `(arg0, arg1, arg2)`. The result is the abort
diagnostics (error case) or the trace of calls performed (ok case). -/
def Task.execute (t : Task) : Except CheckFailure (List Call) :=
  if t.fn_p = NULL then
    Except.error ⟨t.fn_p, t.arg0, t.arg1, t.arg2⟩
  else
    Except.ok [⟨t.fn_p, t.arg0, t.arg1, t.arg2⟩]

/-- Task.hpp `createTask`: builds `Task t(fn_p, arg0, arg1, arg2)` (the
reinterpret casts are identities in this embedding, where every argument is
already a `Ptr`). -/
def createTask (fn_p : Ptr) (arg0 arg1 arg2 : Ptr) : Task :=
  ⟨fn_p, arg0, arg1, arg2⟩

/-- Task.hpp `class TaskManager` state. Fields mirror the private data
members in declaration order. `privateQ` is the `std::deque<Task>` with the
list head as the deque front. `publicQ` models the local shared queue that
`publicHasEle`, `push_public_task` and `tryConsumeShared` operate on; its
concrete container lives outside this header, so it is modelled from the
spec as a queue of tasks. `neighbors` (a `Node*` array) is a list. -/
structure TaskManager where
  privateQ : List Task
  workDone : Bool
  localId : Node
  all_terminate : Bool
  doSteal : Bool
  stealLock : Bool
  doShare : Bool
  wshareLock : Bool
  doGQ : Bool
  gqPushLock : Bool
  gqPullLock : Bool
  neighbors : List Node
  numLocalNodes : Node
  nextVictimIndex : Int
  chunkSize : Int
  sharedMayHaveWork : Bool
  publicQ : List Task
deriving DecidableEq, Repr

namespace TaskManager

/-- Task.hpp `TaskManager::privateHasEle`: `!privateQ.empty()`. -/
def privateHasEle (s : TaskManager) : Bool :=
  !s.privateQ.isEmpty

/-- Modelled from the spec: `TaskManager::publicHasEle` is declared in
Task.hpp but its body is not under src/; the header documents it as
"@return true if local shared queue has elements", so it reports whether
the public queue is non-empty. -/
def publicHasEle (s : TaskManager) : Bool :=
  !s.publicQ.isEmpty

/-- Task.hpp `TaskManager::available` (inline, lines 234-242):
`privateHasEle() || publicHasEle() || (doSteal && stealLock) ||
(doShare && wshareLock) || (doGQ && gqPullLock)`. -/
def available (s : TaskManager) : Bool :=
  s.privateHasEle || s.publicHasEle
    || (s.doSteal && s.stealLock)
    || (s.doShare && s.wshareLock)
    || (s.doGQ && s.gqPullLock)

/-- Task.hpp `TaskManager::local_available` (inline, lines 245-250):
`privateHasEle() || publicHasEle()`. -/
def local_available (s : TaskManager) : Bool :=
  s.privateHasEle || s.publicHasEle

/-- Task.hpp `TaskManager::spawnLocalPrivate`: `Task newtask = createTask(f,
arg0, arg1, arg2); privateQ.push_back( newtask );`. -/
def spawnLocalPrivate (s : TaskManager) (f a0 a1 a2 : Ptr) : TaskManager :=
  { s with privateQ := s.privateQ ++ [createTask f a0 a1 a2] }

/-- Task.hpp `TaskManager::spawnRemotePrivate`: `Task newtask = createTask(f,
arg0, arg1, arg2); privateQ.push_front( newtask );`. -/
def spawnRemotePrivate (s : TaskManager) (f a0 a1 a2 : Ptr) : TaskManager :=
  { s with privateQ := createTask f a0 a1 a2 :: s.privateQ }

/-- Modelled from the spec: `TaskManager::push_public_task` is declared in
Task.hpp but defined outside src/. Per spec section 4.1, `spawnPublic`
"publishes it to the local public queue, making it visible to stealers and
to other local workers"; the `sharedMayHaveWork` hint "must never cause a
true positive to be missed", so publishing sets it. -/
def push_public_task (s : TaskManager) (t : Task) : TaskManager :=
  { s with publicQ := s.publicQ ++ [t], sharedMayHaveWork := true }

/-- Task.hpp `TaskManager::spawnPublic`: `Task newtask = createTask(f, arg0,
arg1, arg2); push_public_task( newtask );`. -/
def spawnPublic (s : TaskManager) (f a0 a1 a2 : Ptr) : TaskManager :=
  s.push_public_task (createTask f a0 a1 a2)

/-- Modelled from the spec: `TaskManager::tryConsumeLocal` is declared in
Task.hpp but defined outside src/. It pops one task from the private queue
if non-empty. The spec gives remote-origin entries, which sit at the front
(section 3: "remotely-triggered spawns ... prepend to the front, giving
remote-origin work priority"; section 4.1: "Front-insertion gives it
priority over already-queued local work"; section 8: "Front-inserted
(remote-origin) tasks are always consumed before back-inserted (local)
tasks"), priority, so consumption takes the front element. -/
def tryConsumeLocal (s : TaskManager) : Option Task × TaskManager :=
  match s.privateQ with
  | [] => (none, s)
  | t :: rest => (some t, { s with privateQ := rest })

/-- Modelled from the spec: `TaskManager::tryConsumeShared` is declared in
Task.hpp but defined outside src/. Per spec section 4.2 it pops "one task
from the local public queue if non-empty and the shared-may-have-work hint
is set"; a scan that finds the queue empty clears the hint, and a
successful pop leaves the hint reflecting whether entries remain. -/
def tryConsumeShared (s : TaskManager) : Option Task × TaskManager :=
  if s.sharedMayHaveWork then
    match s.publicQ with
    | [] => (none, { s with sharedMayHaveWork := false })
    | t :: rest =>
      (some t, { s with publicQ := rest, sharedMayHaveWork := !rest.isEmpty })
  else
    (none, s)

/-- Modelled from the spec: `TaskManager::waitConsumeAny` is declared in
Task.hpp but defined outside src/. Per spec section 4.2 it attempts a
steal, work-share or global pull only when "at least one of stealing /
sharing / global-queue-pull is enabled"; this embedding models the
configuration with `doSteal = doShare = doGQ = false` (the only one the
claims need), in which no source is configured and the round reports no
work found. -/
def waitConsumeAny (s : TaskManager) : Option Task × TaskManager :=
  (none, s)

/-- Modelled from the spec: `TaskManager::getWork` is declared in Task.hpp
but defined outside src/. Per spec section 4.2 the acquisition order is
`tryConsumeLocal`, then `tryConsumeShared`, then `waitConsumeAny`, each
step only attempted if the previous yielded nothing. -/
def getWork (s : TaskManager) : Option Task × TaskManager :=
  match s.tryConsumeLocal with
  | (some t, s1) => (some t, s1)
  | (none, s1) =>
    match s1.tryConsumeShared with
    | (some t, s2) => (some t, s2)
    | (none, s2) => s2.waitConsumeAny

end TaskManager

/-- One operation of the spawn/getWork interface exercised by claim C3:
each spawn carries the function pointer and three arguments of the task it
constructs. -/
inductive Op where
  | spawnLocalPrivate (f a0 a1 a2 : Ptr)
  | spawnRemotePrivate (f a0 a1 a2 : Ptr)
  | spawnPublic (f a0 a1 a2 : Ptr)
  | getWork
deriving DecidableEq, Repr

/-- Result of running a sequence of operations: the final state, the list of
tasks constructed by spawn calls, and the list of tasks returned by
`getWork` calls, in order. -/
structure RunResult where
  state : TaskManager
  spawned : List Task
  consumed : List Task
deriving DecidableEq, Repr

/-- Execute one operation against the task manager. -/
def runOp (s : TaskManager) : Op → RunResult
  | .spawnLocalPrivate f a0 a1 a2 =>
    ⟨s.spawnLocalPrivate f a0 a1 a2, [createTask f a0 a1 a2], []⟩
  | .spawnRemotePrivate f a0 a1 a2 =>
    ⟨s.spawnRemotePrivate f a0 a1 a2, [createTask f a0 a1 a2], []⟩
  | .spawnPublic f a0 a1 a2 =>
    ⟨s.spawnPublic f a0 a1 a2, [createTask f a0 a1 a2], []⟩
  | .getWork =>
    match s.getWork with
    | (some t, s1) => ⟨s1, [], [t]⟩
    | (none, s1) => ⟨s1, [], []⟩

/-- Execute a sequence of operations, accumulating spawned and consumed
tasks. -/
def run (s : TaskManager) : List Op → RunResult
  | [] => ⟨s, [], []⟩
  | op :: ops =>
    let r1 := runOp s op
    let r2 := run r1.state ops
    ⟨r2.state, r1.spawned ++ r2.spawned, r1.consumed ++ r2.consumed⟩

/-- Repeatedly apply `tryConsumeLocal` (with enough fuel) and collect the
tasks it returns, in order. -/
def drainLocalAux : Nat → TaskManager → List Task
  | 0, _ => []
  | n + 1, s =>
    match s.tryConsumeLocal with
    | (none, _) => []
    | (some t, s1) => t :: drainLocalAux n s1

/-- The sequence of tasks obtained by calling `tryConsumeLocal` until it
fails: the order in which the local consume path of `getWork` returns the
private queue's contents. -/
def TaskManager.drainLocal (s : TaskManager) : List Task :=
  drainLocalAux s.privateQ.length s

/-- A private-queue spawn operation, tagged by origin: `rem` is a
`spawnRemotePrivate` (front insertion, remote-message-handler origin),
`loc` is a `spawnLocalPrivate` (back insertion, local worker origin). -/
inductive SpawnOp where
  | rem (f a0 a1 a2 : Ptr)
  | loc (f a0 a1 a2 : Ptr)
deriving DecidableEq, Repr

/-- Apply one private-queue spawn. -/
def applySpawn (s : TaskManager) : SpawnOp → TaskManager
  | .rem f a0 a1 a2 => s.spawnRemotePrivate f a0 a1 a2
  | .loc f a0 a1 a2 => s.spawnLocalPrivate f a0 a1 a2

/-- Apply a sequence of private-queue spawns in order. -/
def applySpawns (s : TaskManager) : List SpawnOp → TaskManager
  | [] => s
  | op :: ops => applySpawns (applySpawn s op) ops

/-- The tasks constructed by the `spawnRemotePrivate` calls of a spawn
sequence, in call order. -/
def remoteTasks : List SpawnOp → List Task
  | [] => []
  | SpawnOp.rem f a0 a1 a2 :: ops => createTask f a0 a1 a2 :: remoteTasks ops
  | SpawnOp.loc _ _ _ _ :: ops => remoteTasks ops

/-- The tasks constructed by the `spawnLocalPrivate` calls of a spawn
sequence, in call order. -/
def localTasks : List SpawnOp → List Task
  | [] => []
  | SpawnOp.loc f a0 a1 a2 :: ops => createTask f a0 a1 a2 :: localTasks ops
  | SpawnOp.rem _ _ _ _ :: ops => localTasks ops

/-- A freshly initialized task manager with empty queues and every flag and
guard clear, used as a concrete state in witnesses. -/
def initTM : TaskManager :=
  { privateQ := [], workDone := false, localId := 0, all_terminate := false,
    doSteal := false, stealLock := false, doShare := false,
    wshareLock := false, doGQ := false, gqPushLock := false,
    gqPullLock := false, neighbors := [], numLocalNodes := 0,
    nextVictimIndex := 0, chunkSize := 0, sharedMayHaveWork := false,
    publicQ := [] }

/-- A state with both queues empty, stealing disabled, but the steal guard
flag set: the concrete state on which claim C1 fails. -/
def cexTM : TaskManager :=
  { initTM with stealLock := true }

lemma drainLocalAux_eq (n : Nat) : ∀ s : TaskManager, s.privateQ.length ≤ n →
    drainLocalAux n s = s.privateQ := by
  induction n with
  | zero =>
    intro s h
    have h0 : s.privateQ = [] := List.length_eq_zero.mp (Nat.le_zero.mp h)
    simp [drainLocalAux, h0]
  | succ n ih =>
    intro s h
    cases hq : s.privateQ with
    | nil => simp [drainLocalAux, TaskManager.tryConsumeLocal, hq]
    | cons t rest =>
      have hlen : rest.length ≤ n := by
        rw [hq] at h
        simp at h
        omega
      simp [drainLocalAux, TaskManager.tryConsumeLocal, hq]
      exact ih { s with privateQ := rest } hlen

/-- Draining the private queue through `tryConsumeLocal` returns exactly its
contents, front first. -/
lemma drainLocal_eq (s : TaskManager) : s.drainLocal = s.privateQ :=
  drainLocalAux_eq s.privateQ.length s (Nat.le_refl _)

/-- After any interleaving of private spawns, the private queue is the
remote-origin tasks (most recent first) in front of the original contents,
followed by the local-origin tasks in spawn order. -/
lemma applySpawns_privateQ (ops : List SpawnOp) : ∀ s : TaskManager,
    (applySpawns s ops).privateQ
      = (remoteTasks ops).reverse ++ s.privateQ ++ localTasks ops := by
  induction ops with
  | nil => intro s; simp [applySpawns, remoteTasks, localTasks]
  | cons op ops ih =>
    intro s
    cases op with
    | rem f a0 a1 a2 =>
      simp [applySpawns, applySpawn, remoteTasks, localTasks,
        TaskManager.spawnRemotePrivate, ih]
    | loc f a0 a1 a2 =>
      simp [applySpawns, applySpawn, remoteTasks, localTasks,
        TaskManager.spawnLocalPrivate, ih]

lemma add3_chain {M : Type} [AddCommMonoid M]
    (a1 a2 p q c1 c2 p1 q1 p2 q2 : M)
    (e1 : a1 + p + q = c1 + p1 + q1) (e2 : a2 + p1 + q1 = c2 + p2 + q2) :
    a1 + a2 + p + q = c1 + c2 + p2 + q2 := by
  calc a1 + a2 + p + q = a1 + p + q + a2 := by abel
    _ = c1 + p1 + q1 + a2 := by rw [e1]
    _ = c1 + (a2 + p1 + q1) := by abel
    _ = c1 + (c2 + p2 + q2) := by rw [e2]
    _ = c1 + c2 + p2 + q2 := by abel

/-- A single operation conserves tasks: the tasks it spawns plus the prior
queue contents equal the tasks it consumes plus the new queue contents, as
multisets. -/
lemma runOp_conservation (s : TaskManager) (op : Op) :
    ((runOp s op).spawned : Multiset Task) + ↑s.privateQ + ↑s.publicQ
      = ((runOp s op).consumed : Multiset Task)
          + ↑(runOp s op).state.privateQ + ↑(runOp s op).state.publicQ := by
  cases op with
  | spawnLocalPrivate f a0 a1 a2 =>
    simp only [runOp, TaskManager.spawnLocalPrivate, ← Multiset.coe_add,
      Multiset.coe_nil, Multiset.coe_singleton, zero_add, add_zero]
    abel
  | spawnRemotePrivate f a0 a1 a2 =>
    simp only [runOp, TaskManager.spawnRemotePrivate]
    rw [show createTask f a0 a1 a2 :: s.privateQ
        = [createTask f a0 a1 a2] ++ s.privateQ from rfl]
    simp only [← Multiset.coe_add, Multiset.coe_nil, Multiset.coe_singleton,
      zero_add, add_zero]
  | spawnPublic f a0 a1 a2 =>
    simp only [runOp, TaskManager.spawnPublic, TaskManager.push_public_task,
      ← Multiset.coe_add, Multiset.coe_nil, Multiset.coe_singleton, zero_add,
      add_zero]
    abel
  | getWork =>
    cases hq : s.privateQ with
    | cons t rest =>
      simp only [runOp, TaskManager.getWork, TaskManager.tryConsumeLocal, hq]
      rw [show t :: rest = [t] ++ rest from rfl]
      simp only [← Multiset.coe_add, Multiset.coe_nil, Multiset.coe_singleton,
        zero_add, add_zero]
    | nil =>
      cases hs : s.sharedMayHaveWork with
      | false =>
        simp [runOp, TaskManager.getWork, TaskManager.tryConsumeLocal,
          TaskManager.tryConsumeShared, TaskManager.waitConsumeAny, hq, hs]
      | true =>
        cases hp : s.publicQ with
        | nil =>
          simp [runOp, TaskManager.getWork, TaskManager.tryConsumeLocal,
            TaskManager.tryConsumeShared, TaskManager.waitConsumeAny, hq, hs,
            hp]
        | cons t rest =>
          simp only [runOp, TaskManager.getWork, TaskManager.tryConsumeLocal,
            TaskManager.tryConsumeShared, TaskManager.waitConsumeAny, hq, hs,
            hp]
          rw [show t :: rest = [t] ++ rest from rfl]
          simp only [← Multiset.coe_add, Multiset.coe_nil,
            Multiset.coe_singleton, zero_add, add_zero]
          abel

/-- Conservation over a whole run: spawned tasks plus initial queue contents
equal consumed tasks plus final queue contents, as multisets. -/
lemma run_conservation (ops : List Op) : ∀ s : TaskManager,
    ((run s ops).spawned : Multiset Task) + ↑s.privateQ + ↑s.publicQ
      = ((run s ops).consumed : Multiset Task)
          + ↑(run s ops).state.privateQ + ↑(run s ops).state.publicQ := by
  induction ops with
  | nil => intro s; simp [run]
  | cons op ops ih =>
    intro s
    have h1 := runOp_conservation s op
    have h2 := ih (runOp s op).state
    simp only [run]
    rw [← Multiset.coe_add, ← Multiset.coe_add]
    exact add3_chain _ _ _ _ _ _ _ _ _ _ h1 h2

/-- A state whose private queue holds one task and is otherwise freshly
initialized, used as a concrete state in witnesses. -/
def onePrivTM : TaskManager :=
  { initTM with privateQ := [createTask 1 2 3 4] }

/-- A state with empty queues, stealing enabled and the steal guard flag
set, used as a concrete state in witnesses. -/
def stealOnTM : TaskManager :=
  { initTM with doSteal := true, stealLock := true }

/-- C1 is false on the code: in state `cexTM` both queues are empty and the
steal guard `stealLock` is held, yet `available()` returns false, because
the code tests `doSteal && stealLock` (and likewise for the other guards),
not the guard alone. The final conjunct refutes the claimed biconditional
at this state. -/
theorem c1_available_guard_counterexample :
    cexTM.privateQ = [] ∧ cexTM.publicQ = [] ∧ cexTM.stealLock = true
      ∧ cexTM.available = false
      ∧ ¬ (cexTM.available = false ↔
            (cexTM.local_available = false ∧ cexTM.stealLock = false
              ∧ cexTM.wshareLock = false ∧ cexTM.gqPullLock = false)) := by
  decide

/-- C1 (amended): `available()` returns false iff `local_available()`
returns false and no guard is held while its corresponding feature switch
is enabled (`doSteal && stealLock`, `doShare && wshareLock`,
`doGQ && gqPullLock` all false); in particular, when both queues are empty
but a guard is held with its feature enabled, `available()` returns
true. -/
theorem c1_available_guard_amended (s : TaskManager) :
    (s.available = false ↔
      (s.local_available = false ∧ (s.doSteal && s.stealLock) = false
        ∧ (s.doShare && s.wshareLock) = false
        ∧ (s.doGQ && s.gqPullLock) = false))
    ∧ (s.privateQ = [] → s.publicQ = [] → s.doSteal = true →
        s.stealLock = true → s.available = true) := by
  constructor
  · simp [TaskManager.available, TaskManager.local_available]
    tauto
  · intro h1 h2 h3 h4
    simp [TaskManager.available, h3, h4]

/-- C1 witness: the amended theorem applied to the concrete state with
stealing enabled and the steal guard held. -/
theorem c1_available_guard_amended_witness : stealOnTM.available = true :=
  (c1_available_guard_amended stealOnTM).2 rfl rfl rfl rfl

/-- C2: `local_available()` returns true iff the private queue or the
public (shared) queue is non-empty, and its value depends only on those two
queues: any state agreeing on both queues gets the same answer, so the
guards and feature switches are never consulted. -/
theorem c2_local_available_queues_only (s : TaskManager) :
    (s.local_available = true ↔ (s.privateQ ≠ [] ∨ s.publicQ ≠ []))
    ∧ (∀ s2 : TaskManager, s2.privateQ = s.privateQ →
        s2.publicQ = s.publicQ → s2.local_available = s.local_available) := by
  constructor
  · simp [TaskManager.local_available, TaskManager.privateHasEle,
      TaskManager.publicHasEle]
  · intro s2 h1 h2
    simp [TaskManager.local_available, TaskManager.privateHasEle,
      TaskManager.publicHasEle, h1, h2]

/-- C2 witness: the theorem applied to a concrete state with one private
task, and to that state with the steal guard flipped, showing the answer
is unchanged. -/
theorem c2_local_available_queues_only_witness :
    onePrivTM.local_available = true
      ∧ { onePrivTM with stealLock := true }.local_available
          = onePrivTM.local_available :=
  ⟨(c2_local_available_queues_only onePrivTM).1.mpr (Or.inl (by decide)),
   (c2_local_available_queues_only onePrivTM).2
     { onePrivTM with stealLock := true } rfl rfl⟩

/-- C3: with stealing, sharing and the global queue all disabled, any
sequence of spawns and getWork calls starting from empty queues conserves
tasks: the spawned tasks equal, as a multiset, the consumed tasks plus the
tasks still queued (nothing lost, nothing duplicated); and once
`available()` is false the consumed tasks are exactly the spawned tasks,
in particular the total consumed count equals the total spawned count. -/
theorem c3_no_balancing_exact_delivery (ops : List Op) (s0 : TaskManager)
    (hSteal : s0.doSteal = false) (hShare : s0.doShare = false)
    (hGQ : s0.doGQ = false) (hPriv : s0.privateQ = [])
    (hPub : s0.publicQ = []) :
    ((run s0 ops).spawned : Multiset Task)
      = ((run s0 ops).consumed : Multiset Task)
          + ↑(run s0 ops).state.privateQ + ↑(run s0 ops).state.publicQ
    ∧ ((run s0 ops).state.available = false →
        ((run s0 ops).consumed : Multiset Task) = ↑(run s0 ops).spawned
          ∧ (run s0 ops).consumed.length = (run s0 ops).spawned.length) := by
  have hcons := run_conservation ops s0
  rw [hPriv, hPub] at hcons
  simp only [Multiset.coe_nil, add_zero] at hcons
  refine ⟨hcons, ?_⟩
  intro hav
  have hq : (run s0 ops).state.privateQ = []
      ∧ (run s0 ops).state.publicQ = [] := by
    simp [TaskManager.available, TaskManager.privateHasEle,
      TaskManager.publicHasEle] at hav
    tauto
  rw [hq.1, hq.2] at hcons
  simp only [Multiset.coe_nil, add_zero] at hcons
  refine ⟨hcons.symm, ?_⟩
  have hcard := congrArg Multiset.card hcons
  simpa [Multiset.coe_card] using hcard.symm

/-- The concrete operation sequence of the C3 witness: spawn one task, then
consume it. -/
def c3ops : List Op :=
  [Op.spawnLocalPrivate 1 2 3 4, Op.getWork]

/-- C3 witness: the theorem applied to the initial state and a concrete
spawn-then-consume sequence. -/
theorem c3_no_balancing_exact_delivery_witness :
    initTM.doSteal = false ∧ initTM.doShare = false ∧ initTM.doGQ = false
      ∧ initTM.privateQ = [] ∧ initTM.publicQ = []
      ∧ (((run initTM c3ops).spawned : Multiset Task)
            = ((run initTM c3ops).consumed : Multiset Task)
                + ↑(run initTM c3ops).state.privateQ
                + ↑(run initTM c3ops).state.publicQ
          ∧ ((run initTM c3ops).state.available = false →
              ((run initTM c3ops).consumed : Multiset Task)
                  = ↑(run initTM c3ops).spawned
                ∧ (run initTM c3ops).consumed.length
                    = (run initTM c3ops).spawned.length)) :=
  ⟨rfl, rfl, rfl, rfl, rfl,
    c3_no_balancing_exact_delivery c3ops initTM rfl rfl rfl rfl rfl⟩

/-- C4: starting from an empty private queue, after any interleaving of
`spawnRemotePrivate` (front insertion) and `spawnLocalPrivate` (back
insertion), repeatedly consuming through `tryConsumeLocal` (the first step
of `getWork`) returns every front-inserted (remote-origin) task before any
back-inserted (local) task: the drain order is the remote-origin tasks
(most recently spawned first) followed by the local tasks in spawn
order. -/
theorem c4_front_inserted_consumed_first (ops : List SpawnOp)
    (s0 : TaskManager) (h : s0.privateQ = []) :
    (applySpawns s0 ops).drainLocal
      = (remoteTasks ops).reverse ++ localTasks ops := by
  rw [TaskManager.drainLocal, drainLocalAux_eq _ _ (Nat.le_refl _),
    applySpawns_privateQ, h]
  simp

/-- The concrete spawn sequence of the C4 witness: a local spawn followed
by a remote spawn. -/
def c4ops : List SpawnOp :=
  [SpawnOp.loc 1 0 0 0, SpawnOp.rem 2 0 0 0]

/-- C4 witness: the theorem applied to the initial state and a concrete
interleaving of one local and one remote spawn. -/
theorem c4_front_inserted_consumed_first_witness :
    initTM.privateQ = []
      ∧ (applySpawns initTM c4ops).drainLocal
          = (remoteTasks c4ops).reverse ++ localTasks c4ops :=
  ⟨rfl, c4_front_inserted_consumed_first c4ops initTM rfl⟩

/-- C5: `spawnLocalPrivate(f, a0, a1, a2)` constructs the task
`{f, a0, a1, a2}` and appends it to the back of `privateQ`: the queue grows
by exactly one and the new task is its last element. -/
theorem c5_spawnLocalPrivate_appends_back (s : TaskManager)
    (f a0 a1 a2 : Ptr) :
    createTask f a0 a1 a2 = Task.mk f a0 a1 a2
    ∧ (s.spawnLocalPrivate f a0 a1 a2).privateQ
        = s.privateQ ++ [createTask f a0 a1 a2]
    ∧ (s.spawnLocalPrivate f a0 a1 a2).privateQ.length
        = s.privateQ.length + 1
    ∧ (s.spawnLocalPrivate f a0 a1 a2).privateQ.getLast?
        = some (createTask f a0 a1 a2) := by
  refine ⟨rfl, rfl, ?_, ?_⟩ <;> simp [TaskManager.spawnLocalPrivate]

/-- C6: `spawnRemotePrivate(f, a0, a1, a2)` constructs the task
`{f, a0, a1, a2}` and prepends it to the front of `privateQ`: the new task
is the first element, and it is the first task the local consume path
returns, taking priority over all already-queued work. -/
theorem c6_spawnRemotePrivate_prepends_front (s : TaskManager)
    (f a0 a1 a2 : Ptr) :
    createTask f a0 a1 a2 = Task.mk f a0 a1 a2
    ∧ (s.spawnRemotePrivate f a0 a1 a2).privateQ
        = createTask f a0 a1 a2 :: s.privateQ
    ∧ (s.spawnRemotePrivate f a0 a1 a2).privateQ.length
        = s.privateQ.length + 1
    ∧ (s.spawnRemotePrivate f a0 a1 a2).privateQ.head?
        = some (createTask f a0 a1 a2)
    ∧ (s.spawnRemotePrivate f a0 a1 a2).drainLocal.head?
        = some (createTask f a0 a1 a2) := by
  refine ⟨rfl, rfl, by simp [TaskManager.spawnRemotePrivate], rfl, ?_⟩
  rw [drainLocal_eq]
  rfl

/-- C7: executing a Task whose function pointer is NULL aborts with
diagnostics carrying the function pointer and all three arguments; when the
function pointer is non-null, the fatal branch is not taken and execute
proceeds to the single call of the function on the arguments. -/
theorem c7_execute_null_is_fatal (t : Task) :
    (t.fn_p = NULL →
      t.execute = Except.error ⟨t.fn_p, t.arg0, t.arg1, t.arg2⟩)
    ∧ (t.fn_p ≠ NULL →
        t.execute = Except.ok [⟨t.fn_p, t.arg0, t.arg1, t.arg2⟩]) := by
  constructor
  · intro h
    simp [Task.execute, h]
  · intro h
    simp [Task.execute, h]

/-- C7 witness: the theorem applied to a concrete null-function task and a
concrete non-null one. -/
theorem c7_execute_null_is_fatal_witness :
    (Task.mk NULL 5 6 7).fn_p = NULL
      ∧ (Task.mk NULL 5 6 7).execute = Except.error ⟨NULL, 5, 6, 7⟩
      ∧ (Task.mk 1 5 6 7).fn_p ≠ NULL
      ∧ (Task.mk 1 5 6 7).execute = Except.ok [⟨1, 5, 6, 7⟩] :=
  ⟨rfl, (c7_execute_null_is_fatal (Task.mk NULL 5 6 7)).1 rfl, by decide,
    (c7_execute_null_is_fatal (Task.mk 1 5 6 7)).2 (by decide)⟩

/-- C8: round trip from creation to execution: for every non-null function
pointer and arguments, executing the task produced by `createTask` invokes
exactly that function on exactly those arguments, once (the call trace is
the singleton call). -/
theorem c8_createTask_execute_roundtrip (f a0 a1 a2 : Ptr) (hf : f ≠ NULL) :
    (createTask f a0 a1 a2).execute = Except.ok [⟨f, a0, a1, a2⟩] := by
  simp [createTask, Task.execute, hf]

/-- C8 witness: the theorem applied to concrete values. -/
theorem c8_createTask_execute_roundtrip_witness :
    (1 : Ptr) ≠ NULL
      ∧ (createTask 1 2 3 4).execute = Except.ok [⟨1, 2, 3, 4⟩] :=
  ⟨by decide, c8_createTask_execute_roundtrip 1 2 3 4 (by decide)⟩

/-- C9: `local_available()` implies `available()` in every state; and
`available()` can be true while `local_available()` is false only when one
of the feature switches is enabled together with its guard. -/
theorem c9_local_available_implies_available (s : TaskManager) :
    (s.local_available = true → s.available = true)
    ∧ (s.available = true → s.local_available = false →
        (s.doSteal = true ∧ s.stealLock = true)
          ∨ (s.doShare = true ∧ s.wshareLock = true)
          ∨ (s.doGQ = true ∧ s.gqPullLock = true)) := by
  constructor
  · intro h
    have hp : s.privateHasEle = true ∨ s.publicHasEle = true := by
      simpa [TaskManager.local_available] using h
    rcases hp with h | h <;> simp [TaskManager.available, h]
  · intro h1 h2
    have hp : s.privateHasEle = false ∧ s.publicHasEle = false := by
      simpa [TaskManager.local_available] using h2
    simp [TaskManager.available, hp.1, hp.2] at h1
    tauto

/-- C9 witness: the theorem applied to a state with one private task (local
availability lifts to availability) and to a state where only the enabled
steal guard makes `available()` exceed `local_available()`. -/
theorem c9_local_available_implies_available_witness :
    onePrivTM.available = true
      ∧ ((stealOnTM.doSteal = true ∧ stealOnTM.stealLock = true)
          ∨ (stealOnTM.doShare = true ∧ stealOnTM.wshareLock = true)
          ∨ (stealOnTM.doGQ = true ∧ stealOnTM.gqPullLock = true)) :=
  ⟨(c9_local_available_implies_available onePrivTM).1 (by decide),
   (c9_local_available_implies_available stealOnTM).2 (by decide) (by decide)⟩

/-- C10: frame property of the private spawns: `spawnLocalPrivate` and
`spawnRemotePrivate` each change only `privateQ`, whose length grows by
exactly one; `workDone`, `localId`, `all_terminate`, the three feature
switches, the four guards, `neighbors`, `numLocalNodes`,
`nextVictimIndex`, `chunkSize`, `sharedMayHaveWork` and the public queue
are all unchanged. -/
theorem c10_spawn_frame (s : TaskManager) (f a0 a1 a2 : Ptr) :
    ((s.spawnLocalPrivate f a0 a1 a2).privateQ.length = s.privateQ.length + 1
      ∧ (s.spawnLocalPrivate f a0 a1 a2).workDone = s.workDone
      ∧ (s.spawnLocalPrivate f a0 a1 a2).localId = s.localId
      ∧ (s.spawnLocalPrivate f a0 a1 a2).all_terminate = s.all_terminate
      ∧ (s.spawnLocalPrivate f a0 a1 a2).doSteal = s.doSteal
      ∧ (s.spawnLocalPrivate f a0 a1 a2).stealLock = s.stealLock
      ∧ (s.spawnLocalPrivate f a0 a1 a2).doShare = s.doShare
      ∧ (s.spawnLocalPrivate f a0 a1 a2).wshareLock = s.wshareLock
      ∧ (s.spawnLocalPrivate f a0 a1 a2).doGQ = s.doGQ
      ∧ (s.spawnLocalPrivate f a0 a1 a2).gqPushLock = s.gqPushLock
      ∧ (s.spawnLocalPrivate f a0 a1 a2).gqPullLock = s.gqPullLock
      ∧ (s.spawnLocalPrivate f a0 a1 a2).neighbors = s.neighbors
      ∧ (s.spawnLocalPrivate f a0 a1 a2).numLocalNodes = s.numLocalNodes
      ∧ (s.spawnLocalPrivate f a0 a1 a2).nextVictimIndex = s.nextVictimIndex
      ∧ (s.spawnLocalPrivate f a0 a1 a2).chunkSize = s.chunkSize
      ∧ (s.spawnLocalPrivate f a0 a1 a2).sharedMayHaveWork
          = s.sharedMayHaveWork
      ∧ (s.spawnLocalPrivate f a0 a1 a2).publicQ = s.publicQ)
    ∧ ((s.spawnRemotePrivate f a0 a1 a2).privateQ.length
          = s.privateQ.length + 1
      ∧ (s.spawnRemotePrivate f a0 a1 a2).workDone = s.workDone
      ∧ (s.spawnRemotePrivate f a0 a1 a2).localId = s.localId
      ∧ (s.spawnRemotePrivate f a0 a1 a2).all_terminate = s.all_terminate
      ∧ (s.spawnRemotePrivate f a0 a1 a2).doSteal = s.doSteal
      ∧ (s.spawnRemotePrivate f a0 a1 a2).stealLock = s.stealLock
      ∧ (s.spawnRemotePrivate f a0 a1 a2).doShare = s.doShare
      ∧ (s.spawnRemotePrivate f a0 a1 a2).wshareLock = s.wshareLock
      ∧ (s.spawnRemotePrivate f a0 a1 a2).doGQ = s.doGQ
      ∧ (s.spawnRemotePrivate f a0 a1 a2).gqPushLock = s.gqPushLock
      ∧ (s.spawnRemotePrivate f a0 a1 a2).gqPullLock = s.gqPullLock
      ∧ (s.spawnRemotePrivate f a0 a1 a2).neighbors = s.neighbors
      ∧ (s.spawnRemotePrivate f a0 a1 a2).numLocalNodes = s.numLocalNodes
      ∧ (s.spawnRemotePrivate f a0 a1 a2).nextVictimIndex = s.nextVictimIndex
      ∧ (s.spawnRemotePrivate f a0 a1 a2).chunkSize = s.chunkSize
      ∧ (s.spawnRemotePrivate f a0 a1 a2).sharedMayHaveWork
          = s.sharedMayHaveWork
      ∧ (s.spawnRemotePrivate f a0 a1 a2).publicQ = s.publicQ) := by
  simp [TaskManager.spawnLocalPrivate, TaskManager.spawnRemotePrivate]

end Grappa
